import Mathlib

/-!
Verification of the SunSeat backend sun-exposure scoring and shadow-occlusion
engine (files `index.js`, `src/services/sun.js` as embedded in
`src/services/meteo.js`, and the shade module of `index.js`).

Embedding choices:
* JavaScript numbers are modelled as rationals; the arithmetic of the engine
  (additive score bands, linear attenuation, clamping, remainder) is exact on
  rationals.
* The external ephemeris (SunCalc) is out of the repository; every function
  that consumes its output is parameterised over that output, already
  converted from radians to degrees (the factor 180/pi is absorbed by the
  parameterisation, so an ephemeris azimuth of r radians appears here as the
  rational degree value corresponding to r * 180 / pi).
* The trigonometric geometry helpers of the shade module (`distanceMeters`,
  `bearingDeg`, and the apparent-elevation arctangent) are real-valued and not
  rational-representable; the shadow evaluator is therefore parameterised over
  a `Geo` record providing those three functions.  Every claim about the
  evaluator quantifies over the derived distance/bearing/elevation values, so
  this parameterisation loses nothing.
* JavaScript remainder `%` (sign of the dividend, truncated quotient) is
  `jsMod`; `Math.round` (half toward positive infinity) is `jsRound`.
-/

namespace SunSeat

/-- JavaScript truncation toward zero (the `Trunc` used by the `%` operator). -/
def jsTrunc (q : ℚ) : ℤ := if 0 ≤ q then ⌊q⌋ else ⌈q⌉

/-- JavaScript remainder `x % y`: `x - y * trunc(x / y)`, sign of the dividend. -/
def jsMod (x y : ℚ) : ℚ := x - y * (jsTrunc (x / y) : ℚ)

/-- JavaScript `Math.round`: rounds half toward positive infinity. -/
def jsRound (x : ℚ) : ℤ := ⌊x + 1/2⌋

/-- Qualitative street width of a venue (data model of the spec, used by
`sunScore` via string comparison in the source). -/
inductive StreetWidth where
  | narrow
  | medium
  | wide
  deriving DecidableEq, Repr

/-- A geographic coordinate in decimal degrees. -/
structure Point where
  lat : ℚ
  lon : ℚ
  deriving DecidableEq, Repr

/-- A building reduced to identifier, estimated height and centroid, as
produced by the buildings service. -/
structure Building where
  id : ℤ
  height_m : ℚ
  centroid : Point
  deriving DecidableEq, Repr

/-- Solar angles in the compass convention, the return value of
`getSunAngles`. -/
structure SunAngles where
  azimuthDeg : ℚ
  altitudeDeg : ℚ
  deriving DecidableEq, Repr

/-- Return value of `isShadedByBuildings`. -/
structure ShadowResult where
  shaded : Bool
  confidence : ℚ
  culprit : Option Building
  deriving DecidableEq, Repr

/-- Source: `angleDiffDeg` of the shade module in `index.js`:
`Math.abs(((a - b + 540) % 360) - 180)`. -/
def angleDiffDeg (a b : ℚ) : ℚ := |jsMod (a - b + 540) 360 - 180|

/-- Source: the inline compass conversion of `sunScore`:
`((pos.azimuth * 180 / Math.PI) + 180) % 360`, as a function of the ephemeris
azimuth already in degrees. -/
def scorerCompassAz (azRaw : ℚ) : ℚ := jsMod (azRaw + 180) 360

/-- Source: the inline circular difference of `sunScore`:
`Math.min(Math.abs(az - o), 360 - Math.abs(az - o))`. -/
def scorerDiff (az o : ℚ) : ℚ := min |az - o| (360 - |az - o|)

/-- Source: `getSunAngles` of the shade module:
azimuth `(toDeg(pos.azimuth) + 180 + 360) % 360`, altitude converted directly.
The ephemeris output is the pair of degree values `azRaw`, `altDeg`. -/
def getSunAngles (azRaw altDeg : ℚ) : SunAngles :=
  { azimuthDeg := jsMod (azRaw + 180 + 360) 360, altitudeDeg := altDeg }

/-- Source: first banded addition of `sunScore`
(`diff < 45 : +55; diff < 90 : +35; else +10`). -/
def baseScore (diff : ℚ) : ℚ := if diff < 45 then 55 else if diff < 90 then 35 else 10

/-- Source: altitude adjustment of `sunScore`
(`alt < 8 : -30; alt < 15 : -15; else +10`). -/
def altAdj (alt : ℚ) : ℚ := if alt < 8 then -30 else if alt < 15 then -15 else 10

/-- Source: street-width penalty of `sunScore`, applied only when `alt < 20`
(`narrow : -15; medium : -5`, nothing otherwise). -/
def widthPenalty (alt : ℚ) (sw : StreetWidth) : ℚ :=
  if alt < 20 then
    match sw with
    | .narrow => -15
    | .medium => -5
    | .wide => 0
  else 0

/-- Source: cloud attenuation of `sunScore`: when the cloud fraction is a
number, `score *= 1 - 0.6 * cloudFraction`; when it is undefined the score is
unchanged. -/
def cloudMul (cloudFraction : Option ℚ) (s : ℚ) : ℚ :=
  match cloudFraction with
  | some cf => s * (1 - 0.6 * cf)
  | none => s

/-- Source: `sunScore` of `src/services/sun.js`, as a function of the
ephemeris output in degrees.  Final line of the source:
`Math.max(0, Math.min(100, Math.round(score)))`. -/
def sunScore (azRaw altDeg orientationDeg : ℚ) (streetWidth : StreetWidth)
    (cloudFraction : Option ℚ) : ℤ :=
  max 0 (min 100 (jsRound (cloudMul cloudFraction
    (baseScore (scorerDiff (scorerCompassAz azRaw) orientationDeg)
      + altAdj altDeg + widthPenalty altDeg streetWidth))))

/-- The trigonometric geometry of the shade module, abstracted:
`distanceMeters` (equirectangular planar distance), `bearingDeg` (spherical
compass bearing) and `atanDeg h d` (the apparent elevation
`toDeg(Math.atan2(h, d))`).  All three are deterministic real-valued
functions; the shadow evaluator only consumes their values. -/
structure Geo where
  distanceMeters : Point → Point → ℚ
  bearingDeg : Point → Point → ℚ
  atanDeg : ℚ → ℚ → ℚ

/-- Source: the body of the `for` loop of `isShadedByBuildings` (the two
`continue` filters, the occlusion test `elev >= alt`, and the running best
culprit update guarded by `conf > best.confidence`).  The source reads
`b.height_m || 0`, which is the identity on a rational height. -/
def shadeStep (g : Geo) (terrace : Point) (azUpSun alt maxDist azTolerance : ℚ)
    (best : ShadowResult) (b : Building) : ShadowResult :=
  let d := g.distanceMeters terrace b.centroid
  if maxDist < d then best
  else
    let azToB := g.bearingDeg terrace b.centroid
    let delta := angleDiffDeg azToB azUpSun
    if azTolerance < delta then best
    else
      let elev := g.atanDeg b.height_m d
      if alt ≤ elev then
        let conf := min 1 ((elev - alt) / 10 * (1 - delta / azTolerance))
        if best.confidence < conf then ⟨true, conf, some b⟩ else best
      else best

/-- Source: `isShadedByBuildings` of the shade module: sun-ward direction
`(sun.azimuthDeg + 180) % 360`, linear scan over the buildings starting from
`{shaded: false, confidence: 0, culprit: undefined}`. -/
def isShadedByBuildings (g : Geo) (terrace : Point) (sun : SunAngles)
    (buildings : List Building) (maxDist azTolerance : ℚ) : ShadowResult :=
  buildings.foldl
    (shadeStep g terrace (jsMod (sun.azimuthDeg + 180) 360) sun.altitudeDeg maxDist azTolerance)
    ⟨false, 0, none⟩

/-- Source: `index.js` line 579: `shade.shaded ? 0.4 - 0.2 * (shade.confidence || 0) : 1`.
The `|| 0` coalescing is the identity on a rational confidence. -/
def shadeFactor (s : ShadowResult) : ℚ :=
  if s.shaded then 0.4 - 0.2 * s.confidence else 1

/-- Source: `index.js` lines 582 to 585 and 611:
`Math.max(0, Math.min(100, Math.round(raw * factor)))`. -/
def finalScore (raw : ℤ) (s : ShadowResult) : ℤ :=
  max 0 (min 100 (jsRound ((raw : ℚ) * shadeFactor s)))

/-- Source: the forecast driver of `index.js` lines 590 to 614: for each
offset `m` minutes, the timestamp is `now + m * 60000` milliseconds, the raw
score and the solar angles are recomputed there, the shadow evaluator is
re-run against the time-invariant building list with `{maxDist: 80,
azTolerance: 25}`, and the entry `{tmin: m, score: final}` is produced.
`sunAt` maps a timestamp to the ephemeris degree pair at the venue
coordinate. -/
def forecast (g : Geo) (sunAt : ℤ → ℚ × ℚ) (orientationDeg : ℚ) (sw : StreetWidth)
    (cf : Option ℚ) (terrace : Point) (buildings : List Building) (now : ℤ)
    (offsets : List ℤ) : List (ℤ × ℤ) :=
  offsets.map fun m =>
    let d := now + m * 60000
    let raw := sunScore (sunAt d).1 (sunAt d).2 orientationDeg sw cf
    let sunT := getSunAngles (sunAt d).1 (sunAt d).2
    let shadeT := isShadedByBuildings g terrace sunT buildings 80 25
    (m, finalScore raw shadeT)

/-- Spec-side normalization of an angle into the half-open interval from 0 to
360, via the fractional part. -/
def circMod (x : ℚ) : ℚ := 360 * Int.fract (x / 360)

/-- Spec-side minimal circular difference between two bearings, the notion
named by the specification. -/
def minCircDiff (a b : ℚ) : ℚ := min (circMod (a - b)) (360 - circMod (a - b))

/-- Reference scorer following the words of the specification (claim C2):
diff is the minimal circular difference between the solar azimuth (the
adapter output) and the orientation, the same additive bands, cloud
attenuation only when the fraction is present, and finally clamp to the
interval from 0 to 100 and round. -/
def sunScoreSpec (azRaw altDeg orientationDeg : ℚ) (streetWidth : StreetWidth)
    (cloudFraction : Option ℚ) : ℤ :=
  jsRound (max 0 (min 100 (cloudMul cloudFraction
    (baseScore (minCircDiff (getSunAngles azRaw altDeg).azimuthDeg orientationDeg)
      + altAdj altDeg + widthPenalty altDeg streetWidth))))

/-- Reference projection following the words of the specification (claim C7):
per offset, recompute the timestamp, the raw score and the shadow result,
derive the shade factor, and output round of clamp of the product. -/
def projectSpec (g : Geo) (sunAt : ℤ → ℚ × ℚ) (orientationDeg : ℚ) (sw : StreetWidth)
    (cf : Option ℚ) (terrace : Point) (buildings : List Building) (now : ℤ)
    (offsets : List ℤ) : List (ℤ × ℤ) :=
  offsets.map fun m =>
    let d := now + m * 60000
    let raw := sunScore (sunAt d).1 (sunAt d).2 orientationDeg sw cf
    let sh := isShadedByBuildings g terrace (getSunAngles (sunAt d).1 (sunAt d).2) buildings 80 25
    (m, jsRound (max 0 (min 100 ((raw : ℚ)
      * (if sh.shaded then 0.4 - 0.2 * sh.confidence else 1)))))

/-! ### Arithmetic helper lemmas -/

lemma jsMod_interval (x y : ℚ) (k : ℕ) (hy : 0 < y) (h1 : (k : ℚ) * y ≤ x)
    (h2 : x < ((k : ℚ) + 1) * y) : jsMod x y = x - k * y := by
  have hx : (0 : ℚ) ≤ x := le_trans (by positivity) h1
  have hq : 0 ≤ x / y := div_nonneg hx hy.le
  have hfloor : ⌊x / y⌋ = (k : ℤ) := by
    rw [Int.floor_eq_iff]
    constructor
    · rw [le_div_iff₀ hy]
      push_cast
      linarith
    · rw [div_lt_iff₀ hy]
      push_cast
      linarith
  unfold jsMod jsTrunc
  rw [if_pos hq, hfloor]
  push_cast
  ring

lemma jsMod_360_lt (x : ℚ) (h0 : 0 ≤ x) (h1 : x < 360) : jsMod x 360 = x := by
  have := jsMod_interval x 360 0 (by norm_num) (by push_cast; linarith) (by push_cast; linarith)
  simpa using this

lemma jsMod_360_one (x : ℚ) (h0 : 360 ≤ x) (h1 : x < 720) : jsMod x 360 = x - 360 := by
  have := jsMod_interval x 360 1 (by norm_num) (by push_cast; linarith) (by push_cast; linarith)
  push_cast at this
  linarith

lemma jsMod_360_two (x : ℚ) (h0 : 720 ≤ x) (h1 : x < 1080) : jsMod x 360 = x - 720 := by
  have := jsMod_interval x 360 2 (by norm_num) (by push_cast; linarith) (by push_cast; linarith)
  push_cast at this
  linarith

/-- The adapter azimuth formula and the scorer inline azimuth formula agree on
the ephemeris range. -/
lemma adapterAz_eq_scorerAz (azRaw : ℚ) (h1 : -180 < azRaw) (h2 : azRaw ≤ 180) :
    jsMod (azRaw + 180 + 360) 360 = jsMod (azRaw + 180) 360 := by
  rcases eq_or_lt_of_le h2 with heq | hlt
  · subst heq
    rw [jsMod_360_two (180 + 180 + 360) (by norm_num) (by norm_num),
      jsMod_360_one (180 + 180) (by norm_num) (by norm_num)]
    norm_num
  · rw [jsMod_360_one (azRaw + 180 + 360) (by linarith) (by linarith),
      jsMod_360_lt (azRaw + 180) (by linarith) (by linarith)]
    ring

lemma scorerAz_bounds (azRaw : ℚ) (h1 : -180 < azRaw) (h2 : azRaw ≤ 180) :
    0 ≤ jsMod (azRaw + 180) 360 ∧ jsMod (azRaw + 180) 360 < 360 := by
  rcases eq_or_lt_of_le h2 with heq | hlt
  · subst heq
    rw [jsMod_360_one (180 + 180) (by norm_num) (by norm_num)]
    norm_num
  · rw [jsMod_360_lt (azRaw + 180) (by linarith) (by linarith)]
    constructor <;> linarith

/-- On normalized bearings the shade-module circular difference is the
min-of-two-absolutes formula used inline by the scorer. -/
lemma angleDiffDeg_eq_scorerDiff (a b : ℚ) (ha0 : 0 ≤ a) (ha1 : a < 360)
    (hb0 : 0 ≤ b) (hb1 : b < 360) : angleDiffDeg a b = scorerDiff a b := by
  unfold angleDiffDeg scorerDiff
  rcases lt_or_le (a - b) (-180) with h | h
  · rw [jsMod_360_lt (a - b + 540) (by linarith) (by linarith)]
    rw [abs_of_nonneg (by linarith : (0 : ℚ) ≤ a - b + 540 - 180),
      abs_of_neg (by linarith : a - b < 0)]
    rw [min_eq_right (by linarith)]
    ring
  · rcases lt_or_le (a - b) 180 with h2 | h2
    · rw [jsMod_360_one (a - b + 540) (by linarith) (by linarith)]
      have habs : |a - b + 540 - 360 - 180| = |a - b| := by congr 1; ring
      have hb180 : |a - b| ≤ 180 := abs_le.mpr ⟨by linarith, by linarith⟩
      rw [habs, min_eq_left (by linarith)]
    · rw [jsMod_360_two (a - b + 540) (by linarith) (by linarith)]
      rw [abs_of_nonpos (by linarith : a - b + 540 - 720 - 180 ≤ 0),
        abs_of_nonneg (by linarith : (0 : ℚ) ≤ a - b)]
      rw [min_eq_right (by linarith)]
      ring

/-- The spec-side minimal circular difference agrees with the scorer inline
formula on normalized inputs. -/
lemma minCircDiff_eq_scorerDiff (a b : ℚ) (ha0 : 0 ≤ a) (ha1 : a < 360)
    (hb0 : 0 ≤ b) (hb1 : b < 360) : minCircDiff a b = scorerDiff a b := by
  unfold minCircDiff circMod scorerDiff
  rcases le_or_lt b a with h | h
  · have hfr : Int.fract ((a - b) / 360) = (a - b) / 360 := by
      rw [Int.fract_eq_self]
      constructor
      · exact div_nonneg (by linarith) (by norm_num)
      · rw [div_lt_one (by norm_num : (0 : ℚ) < 360)]
        linarith
    rw [hfr, abs_of_nonneg (by linarith : (0 : ℚ) ≤ a - b)]
    rw [show (360 : ℚ) * ((a - b) / 360) = a - b by field_simp]
  · have hfr : Int.fract ((a - b) / 360) = (a - b) / 360 + 1 := by
      have h1 : Int.fract ((a - b) / 360 + (1 : ℤ)) = Int.fract ((a - b) / 360) :=
        Int.fract_add_int _ _
      rw [show (((1 : ℤ) : ℚ)) = 1 by norm_num] at h1
      rw [← h1, Int.fract_eq_self]
      constructor
      · have : -(1 : ℚ) < (a - b) / 360 := by
          rw [lt_div_iff₀ (by norm_num : (0 : ℚ) < 360)]
          linarith
        linarith
      · have : (a - b) / 360 < 0 := by
          rw [div_lt_iff₀ (by norm_num : (0 : ℚ) < 360)]
          linarith
        linarith
    rw [hfr, abs_of_neg (by linarith : a - b < 0)]
    rw [show (360 : ℚ) * ((a - b) / 360 + 1) = a - b + 360 by field_simp]
    rw [min_comm]
    congr 1 <;> ring

/-- Rounding after clamping and clamping after rounding give the same integer
in the interval from 0 to 100. -/
lemma jsRound_clamp (x : ℚ) : jsRound (max 0 (min 100 x)) = max 0 (min 100 (jsRound x)) := by
  unfold jsRound
  rcases le_or_lt 0 x with hx0 | hx0
  · rcases le_or_lt x 100 with hx1 | hx1
    · rw [min_eq_right hx1, max_eq_right hx0]
      have hlow : (0 : ℤ) ≤ ⌊x + 1/2⌋ := by
        rw [Int.le_floor]
        push_cast
        linarith
      have hhigh : ⌊x + 1/2⌋ ≤ 100 := by
        have h1 : ⌊x + 1/2⌋ ≤ ⌊(201 : ℚ)/2⌋ := Int.floor_le_floor (by linarith)
        have h2 : ⌊(201 : ℚ)/2⌋ = 100 := by norm_num
        omega
      rw [min_eq_right hhigh, max_eq_right hlow]
    · rw [min_eq_left (le_of_lt hx1), max_eq_right (by norm_num : (0 : ℚ) ≤ 100)]
      have hge : (100 : ℤ) ≤ ⌊x + 1/2⌋ := by
        rw [Int.le_floor]
        push_cast
        linarith
      rw [min_eq_left hge, max_eq_right (by omega : (0 : ℤ) ≤ 100)]
      norm_num
  · rw [min_eq_right (by linarith : x ≤ 100), max_eq_left (le_of_lt hx0)]
    have hle : ⌊x + 1/2⌋ ≤ 0 := by
      have h1 : ⌊x + 1/2⌋ ≤ ⌊(1 : ℚ)/2⌋ := Int.floor_le_floor (by linarith)
      have h2 : ⌊(1 : ℚ)/2⌋ = 0 := by norm_num
      omega
    rw [min_eq_right (by omega : ⌊x + 1/2⌋ ≤ 100), max_eq_left hle]
    norm_num

/-! ### Claim theorems: conversions, angular difference, scorer -/

/-- C1: on the ephemeris range from just above -180 to 180 degrees, the solar
position adapter `getSunAngles` returns the altitude in degrees unchanged and
the azimuth converted to a compass bearing lying in the interval from 0
(inclusive) to 360 (exclusive), and the inline conversion inside `sunScore`
(without the extra +360) produces the same compass azimuth. -/
theorem getSunAngles_convention (azRaw altDeg : ℚ) (h1 : -180 < azRaw) (h2 : azRaw ≤ 180) :
    (getSunAngles azRaw altDeg).altitudeDeg = altDeg ∧
      0 ≤ (getSunAngles azRaw altDeg).azimuthDeg ∧
      (getSunAngles azRaw altDeg).azimuthDeg < 360 ∧
      (getSunAngles azRaw altDeg).azimuthDeg = scorerCompassAz azRaw := by
  have hb := scorerAz_bounds azRaw h1 h2
  have he := adapterAz_eq_scorerAz azRaw h1 h2
  simp only [getSunAngles, scorerCompassAz]
  refine ⟨trivial, ?_, ?_, he⟩
  · rw [he]; exact hb.1
  · rw [he]; exact hb.2

theorem getSunAngles_convention_witness :
    (getSunAngles 90 33).altitudeDeg = 33 ∧
      0 ≤ (getSunAngles 90 33).azimuthDeg ∧
      (getSunAngles 90 33).azimuthDeg < 360 ∧
      (getSunAngles 90 33).azimuthDeg = scorerCompassAz 90 :=
  getSunAngles_convention 90 33 (by norm_num) (by norm_num)

/-- C9: on normalized bearings the shade-module angular difference is
symmetric and lies in the closed interval from 0 to 180. -/
theorem angleDiffDeg_symm_range (a b : ℚ) (ha0 : 0 ≤ a) (ha1 : a < 360)
    (hb0 : 0 ≤ b) (hb1 : b < 360) :
    angleDiffDeg a b = angleDiffDeg b a ∧
      0 ≤ angleDiffDeg a b ∧ angleDiffDeg a b ≤ 180 := by
  rw [angleDiffDeg_eq_scorerDiff a b ha0 ha1 hb0 hb1,
    angleDiffDeg_eq_scorerDiff b a hb0 hb1 ha0 ha1]
  unfold scorerDiff
  have habs : |a - b| ≤ 360 := abs_le.mpr ⟨by linarith, by linarith⟩
  refine ⟨?_, ?_, ?_⟩
  · rw [abs_sub_comm]
  · exact le_min (abs_nonneg _) (by linarith)
  · rcases le_or_lt |a - b| 180 with h | h
    · exact le_trans (min_le_left _ _) h
    · exact le_trans (min_le_right _ _) (by linarith)

theorem angleDiffDeg_symm_range_witness :
    angleDiffDeg 10 350 = angleDiffDeg 350 10 ∧
      0 ≤ angleDiffDeg 10 350 ∧ angleDiffDeg 10 350 ≤ 180 :=
  angleDiffDeg_symm_range 10 350 (by norm_num) (by norm_num) (by norm_num) (by norm_num)

/-- C10: on normalized bearings the shade-module circular difference
`angleDiffDeg` and the inline formula of the exposure scorer compute the same
function. -/
theorem angleDiffDeg_refines_scorer (a b : ℚ) (ha0 : 0 ≤ a) (ha1 : a < 360)
    (hb0 : 0 ≤ b) (hb1 : b < 360) :
    angleDiffDeg a b = scorerDiff a b :=
  angleDiffDeg_eq_scorerDiff a b ha0 ha1 hb0 hb1

theorem angleDiffDeg_refines_scorer_witness :
    angleDiffDeg 10 350 = scorerDiff 10 350 :=
  angleDiffDeg_refines_scorer 10 350 (by norm_num) (by norm_num) (by norm_num) (by norm_num)

/-- C2: for an ephemeris azimuth in the contract range and a normalized
orientation, `sunScore` computes exactly the reference definition written
from the words of the specification. -/
theorem sunScore_matches_reference (azRaw altDeg orientationDeg : ℚ)
    (sw : StreetWidth) (cf : Option ℚ) (h1 : -180 < azRaw) (h2 : azRaw ≤ 180)
    (ho0 : 0 ≤ orientationDeg) (ho1 : orientationDeg < 360) :
    sunScore azRaw altDeg orientationDeg sw cf
      = sunScoreSpec azRaw altDeg orientationDeg sw cf := by
  have hb := scorerAz_bounds azRaw h1 h2
  unfold sunScore sunScoreSpec
  simp only [getSunAngles, scorerCompassAz]
  rw [adapterAz_eq_scorerAz azRaw h1 h2]
  rw [minCircDiff_eq_scorerDiff _ _ hb.1 hb.2 ho0 ho1]
  rw [jsRound_clamp]

theorem sunScore_matches_reference_witness :
    sunScore 45 30 200 StreetWidth.medium (some (3/10))
      = sunScoreSpec 45 30 200 StreetWidth.medium (some (3/10)) :=
  sunScore_matches_reference 45 30 200 StreetWidth.medium (some (3/10))
    (by norm_num) (by norm_num) (by norm_num) (by norm_num)

/-- C3 counterexample: with clear sky (cloud fraction 0), perfect alignment
(the scorer circular difference is 0), altitude 25 degrees (above 20) and a
wide street, `sunScore` returns 65, not the 75 the claim states: the maximum
band of the code is 55 + 10 = 65, there is no third +10. -/
theorem sunScore_max_band_cex :
    scorerDiff (scorerCompassAz 0) 180 = 0 ∧
      sunScore 0 25 180 StreetWidth.wide (some 0) = 65 ∧
      sunScore 0 25 180 StreetWidth.wide (some 0) ≠ 75 := by
  have haz : scorerCompassAz 0 = 180 := by
    unfold scorerCompassAz
    norm_num [jsMod, jsTrunc]
  have hdiff : scorerDiff (scorerCompassAz 0) 180 = 0 := by
    rw [haz]
    unfold scorerDiff
    norm_num [min_def]
  have hscore : sunScore 0 25 180 StreetWidth.wide (some 0) = 65 := by
    unfold sunScore
    rw [hdiff]
    norm_num [baseScore, altAdj, widthPenalty, cloudMul, jsRound, min_def, max_def]
  exact ⟨hdiff, hscore, by rw [hscore]; norm_num⟩

/-- C3 amended: with clear sky, perfect alignment, altitude above 20 degrees
and a wide street, the score is the maximum band of the code, 55 + 10 = 65
(clamped and rounded to 65). -/
theorem sunScore_max_band (azRaw altDeg orientationDeg : ℚ)
    (hdiff : scorerDiff (scorerCompassAz azRaw) orientationDeg = 0)
    (halt : 20 < altDeg) :
    sunScore azRaw altDeg orientationDeg StreetWidth.wide (some 0) = 65 := by
  unfold sunScore
  rw [hdiff]
  have hb : baseScore 0 = 55 := by norm_num [baseScore]
  have ha : altAdj altDeg = 10 := by
    unfold altAdj
    rw [if_neg (not_lt.mpr (by linarith)), if_neg (not_lt.mpr (by linarith))]
  have hw : widthPenalty altDeg StreetWidth.wide = 0 := by
    unfold widthPenalty
    rw [if_neg (not_lt.mpr (by linarith))]
  rw [hb, ha, hw]
  norm_num [cloudMul, jsRound, min_def, max_def]

theorem sunScore_max_band_witness :
    sunScore 10 25 190 StreetWidth.wide (some 0) = 65 := by
  refine sunScore_max_band 10 25 190 ?_ (by norm_num)
  unfold scorerDiff scorerCompassAz
  norm_num [jsMod, jsTrunc, min_def]

/-- C8: both the raw scorer output and the shade-attenuated final score are
integers clamped into the interval from 0 to 100, for every input; both
computations are total Lean functions. -/
theorem scores_always_in_range (azRaw altDeg orientationDeg : ℚ) (sw : StreetWidth)
    (cf : Option ℚ) (raw : ℤ) (s : ShadowResult) :
    (0 ≤ sunScore azRaw altDeg orientationDeg sw cf ∧
        sunScore azRaw altDeg orientationDeg sw cf ≤ 100) ∧
      (0 ≤ finalScore raw s ∧ finalScore raw s ≤ 100) := by
  unfold sunScore finalScore
  exact ⟨⟨le_max_left _ _, max_le (by norm_num) (min_le_left _ _)⟩,
    ⟨le_max_left _ _, max_le (by norm_num) (min_le_left _ _)⟩⟩

/-! ### Claim theorems: shadow evaluator and projection driver -/

/-- A building that fails the distance filter or the azimuth-tolerance filter
is skipped by the loop body, whatever the running best is. -/
lemma shadeStep_skip (g : Geo) (terrace : Point) (azUpSun alt : ℚ) (b : Building)
    (h : 80 < g.distanceMeters terrace b.centroid ∨
      25 < angleDiffDeg (g.bearingDeg terrace b.centroid) azUpSun) :
    ∀ best, shadeStep g terrace azUpSun alt 80 25 best b = best := by
  intro best
  simp only [shadeStep]
  rcases h with h | h
  · rw [if_pos h]
  · by_cases hd : 80 < g.distanceMeters terrace b.centroid
    · rw [if_pos hd]
    · rw [if_neg hd, if_pos h]

/-- Closed form of the loop body on the initial accumulator. -/
lemma shadeStep_init (g : Geo) (terrace : Point) (azUpSun alt : ℚ) (b : Building) :
    shadeStep g terrace azUpSun alt 80 25 ⟨false, 0, none⟩ b =
      if g.distanceMeters terrace b.centroid ≤ 80 ∧
          angleDiffDeg (g.bearingDeg terrace b.centroid) azUpSun ≤ 25 ∧
          alt ≤ g.atanDeg b.height_m (g.distanceMeters terrace b.centroid) ∧
          0 < min 1 ((g.atanDeg b.height_m (g.distanceMeters terrace b.centroid) - alt) / 10
            * (1 - angleDiffDeg (g.bearingDeg terrace b.centroid) azUpSun / 25)) then
        ⟨true,
          min 1 ((g.atanDeg b.height_m (g.distanceMeters terrace b.centroid) - alt) / 10
            * (1 - angleDiffDeg (g.bearingDeg terrace b.centroid) azUpSun / 25)),
          some b⟩
      else ⟨false, 0, none⟩ := by
  simp only [shadeStep]
  by_cases h1 : 80 < g.distanceMeters terrace b.centroid
  · rw [if_pos h1, if_neg]
    rintro ⟨hc, -⟩
    exact absurd h1 (not_lt.mpr hc)
  · rw [if_neg h1]
    by_cases h2 : 25 < angleDiffDeg (g.bearingDeg terrace b.centroid) azUpSun
    · rw [if_pos h2, if_neg]
      rintro ⟨-, hc, -⟩
      exact absurd h2 (not_lt.mpr hc)
    · rw [if_neg h2]
      by_cases h3 : alt ≤ g.atanDeg b.height_m (g.distanceMeters terrace b.centroid)
      · rw [if_pos h3]
        by_cases h4 : 0 < min 1
            ((g.atanDeg b.height_m (g.distanceMeters terrace b.centroid) - alt) / 10
              * (1 - angleDiffDeg (g.bearingDeg terrace b.centroid) azUpSun / 25))
        · rw [if_pos h4, if_pos ⟨not_lt.mp h1, not_lt.mp h2, h3, h4⟩]
        · rw [if_neg h4, if_neg]
          rintro ⟨-, -, -, hc⟩
          exact h4 hc
      · rw [if_neg h3, if_neg]
        rintro ⟨-, -, hc, -⟩
        exact h3 hc

/-- C4: a building whose planar distance to the venue is strictly greater
than 80 meters, or whose bearing from the venue differs from the sun-ward
direction by strictly more than 25 degrees, never affects the result of
`isShadedByBuildings` (shaded flag, confidence, and culprit alike), wherever
it sits in the building list. -/
theorem isShaded_ignores_far_or_misaligned (g : Geo) (terrace : Point) (sun : SunAngles)
    (pre post : List Building) (b : Building)
    (h : 80 < g.distanceMeters terrace b.centroid ∨
      25 < angleDiffDeg (g.bearingDeg terrace b.centroid) (jsMod (sun.azimuthDeg + 180) 360)) :
    isShadedByBuildings g terrace sun (pre ++ b :: post) 80 25
      = isShadedByBuildings g terrace sun (pre ++ post) 80 25 := by
  unfold isShadedByBuildings
  rw [List.foldl_append, List.foldl_append, List.foldl_cons,
    shadeStep_skip g terrace (jsMod (sun.azimuthDeg + 180) 360) sun.altitudeDeg b h]

theorem isShaded_ignores_far_or_misaligned_witness :
    isShadedByBuildings ⟨fun _ _ => 100, fun _ _ => 0, fun _ _ => 90⟩ ⟨0, 0⟩ ⟨0, 10⟩
        [⟨1, 12, ⟨0, 0⟩⟩] 80 25
      = isShadedByBuildings ⟨fun _ _ => 100, fun _ _ => 0, fun _ _ => 90⟩ ⟨0, 0⟩ ⟨0, 10⟩
        [] 80 25 :=
  isShaded_ignores_far_or_misaligned ⟨fun _ _ => 100, fun _ _ => 0, fun _ _ => 90⟩
    ⟨0, 0⟩ ⟨0, 10⟩ [] [] ⟨1, 12, ⟨0, 0⟩⟩ (Or.inl (show (80 : ℚ) < 100 by norm_num))

/-- C5 counterexample: a single candidate building that passes both filters
(distance 10 of at most 80, angular delta 0 of at most 25) and whose apparent
elevation equals the solar altitude exactly (30 = 30) is NOT reported as
shading: at the boundary the confidence is 0, which does not exceed the
initial best confidence 0, so the claimed inclusive boundary fails. -/
theorem isShaded_boundary_cex :
    (isShadedByBuildings ⟨fun _ _ => 10, fun _ _ => 180, fun _ _ => 30⟩ ⟨0, 0⟩ ⟨0, 30⟩
        [⟨1, 12, ⟨0, 0⟩⟩] 80 25).shaded = false ∧
      (10 : ℚ) ≤ 80 ∧
      angleDiffDeg 180 (jsMod ((0 : ℚ) + 180) 360) ≤ 25 ∧
      (30 : ℚ) ≤ 30 := by
  refine ⟨?_, by norm_num, ?_, le_refl _⟩
  · simp only [isShadedByBuildings, List.foldl_cons, List.foldl_nil, shadeStep]
    norm_num [angleDiffDeg, jsMod, jsTrunc, min_def]
  · norm_num [angleDiffDeg, jsMod, jsTrunc]

/-- C5 amended: a single candidate building within the distance filter is
reported as shading (with itself as culprit) if and only if its apparent
elevation STRICTLY exceeds the solar altitude and its angular delta is
STRICTLY below the tolerance; at either boundary the confidence is 0, which
does not beat the initial best, so the building is not reported. -/
theorem isShaded_single_iff (g : Geo) (terrace : Point) (sun : SunAngles) (b : Building)
    (hd : g.distanceMeters terrace b.centroid ≤ 80) :
    ((isShadedByBuildings g terrace sun [b] 80 25).shaded = true ↔
      (sun.altitudeDeg < g.atanDeg b.height_m (g.distanceMeters terrace b.centroid) ∧
        angleDiffDeg (g.bearingDeg terrace b.centroid) (jsMod (sun.azimuthDeg + 180) 360) < 25)) ∧
      ((isShadedByBuildings g terrace sun [b] 80 25).shaded = true →
        (isShadedByBuildings g terrace sun [b] 80 25).culprit = some b) := by
  have hres : isShadedByBuildings g terrace sun [b] 80 25
      = shadeStep g terrace (jsMod (sun.azimuthDeg + 180) 360) sun.altitudeDeg 80 25
        ⟨false, 0, none⟩ b := rfl
  rw [hres, shadeStep_init]
  by_cases hcond : g.distanceMeters terrace b.centroid ≤ 80 ∧
      angleDiffDeg (g.bearingDeg terrace b.centroid) (jsMod (sun.azimuthDeg + 180) 360) ≤ 25 ∧
      sun.altitudeDeg ≤ g.atanDeg b.height_m (g.distanceMeters terrace b.centroid) ∧
      0 < min 1 ((g.atanDeg b.height_m (g.distanceMeters terrace b.centroid) - sun.altitudeDeg) / 10
        * (1 - angleDiffDeg (g.bearingDeg terrace b.centroid) (jsMod (sun.azimuthDeg + 180) 360) / 25))
  · rw [if_pos hcond]
    obtain ⟨-, hΔ, hAE, hC⟩ := hcond
    have hprod : 0 < (g.atanDeg b.height_m (g.distanceMeters terrace b.centroid)
        - sun.altitudeDeg) / 10
        * (1 - angleDiffDeg (g.bearingDeg terrace b.centroid)
            (jsMod (sun.azimuthDeg + 180) 360) / 25) :=
      (lt_min_iff.mp hC).2
    have hp2nn : 0 ≤ 1 - angleDiffDeg (g.bearingDeg terrace b.centroid)
        (jsMod (sun.azimuthDeg + 180) 360) / 25 := by
      have : angleDiffDeg (g.bearingDeg terrace b.centroid)
          (jsMod (sun.azimuthDeg + 180) 360) / 25 ≤ 1 := by
        rw [div_le_one (by norm_num : (0 : ℚ) < 25)]
        exact hΔ
      linarith
    have hp1 : 0 < (g.atanDeg b.height_m (g.distanceMeters terrace b.centroid)
        - sun.altitudeDeg) / 10 := by
      by_contra hno
      push_neg at hno
      have := mul_nonpos_of_nonpos_of_nonneg hno hp2nn
      linarith
    have hp2 : 0 < 1 - angleDiffDeg (g.bearingDeg terrace b.centroid)
        (jsMod (sun.azimuthDeg + 180) 360) / 25 := by
      rcases hp2nn.lt_or_eq with h | h
      · exact h
      · exfalso
        rw [← h, mul_zero] at hprod
        exact lt_irrefl 0 hprod
    have hAE' : sun.altitudeDeg < g.atanDeg b.height_m (g.distanceMeters terrace b.centroid) := by
      rw [lt_div_iff₀ (by norm_num : (0 : ℚ) < 10)] at hp1
      linarith
    have hΔ' : angleDiffDeg (g.bearingDeg terrace b.centroid)
        (jsMod (sun.azimuthDeg + 180) 360) < 25 := by
      rw [sub_pos, div_lt_one (by norm_num : (0 : ℚ) < 25)] at hp2
      exact hp2
    exact ⟨⟨fun _ => ⟨hAE', hΔ'⟩, fun _ => rfl⟩, fun _ => rfl⟩
  · rw [if_neg hcond]
    constructor
    · constructor
      · intro hfalse
        exact absurd hfalse (by simp)
      · rintro ⟨hAE, hΔ⟩
        exfalso
        apply hcond
        refine ⟨hd, le_of_lt hΔ, le_of_lt hAE, ?_⟩
        have hp1 : 0 < (g.atanDeg b.height_m (g.distanceMeters terrace b.centroid)
            - sun.altitudeDeg) / 10 := by
          apply div_pos (by linarith) (by norm_num)
        have hp2 : 0 < 1 - angleDiffDeg (g.bearingDeg terrace b.centroid)
            (jsMod (sun.azimuthDeg + 180) 360) / 25 := by
          have : angleDiffDeg (g.bearingDeg terrace b.centroid)
              (jsMod (sun.azimuthDeg + 180) 360) / 25 < 1 := by
            rw [div_lt_one (by norm_num : (0 : ℚ) < 25)]
            exact hΔ
          linarith
        exact lt_min (by norm_num) (mul_pos hp1 hp2)
    · intro hfalse
      exact absurd hfalse (by simp)

theorem isShaded_single_iff_witness :
    ((isShadedByBuildings ⟨fun _ _ => 10, fun _ _ => 180, fun _ _ => 40⟩ ⟨0, 0⟩ ⟨0, 30⟩
        [⟨1, 12, ⟨0, 0⟩⟩] 80 25).shaded = true ↔
      ((30 : ℚ) < 40 ∧ angleDiffDeg 180 (jsMod ((0 : ℚ) + 180) 360) < 25)) ∧
      ((isShadedByBuildings ⟨fun _ _ => 10, fun _ _ => 180, fun _ _ => 40⟩ ⟨0, 0⟩ ⟨0, 30⟩
          [⟨1, 12, ⟨0, 0⟩⟩] 80 25).shaded = true →
        (isShadedByBuildings ⟨fun _ _ => 10, fun _ _ => 180, fun _ _ => 40⟩ ⟨0, 0⟩ ⟨0, 30⟩
          [⟨1, 12, ⟨0, 0⟩⟩] 80 25).culprit = some ⟨1, 12, ⟨0, 0⟩⟩) :=
  isShaded_single_iff ⟨fun _ _ => 10, fun _ _ => 180, fun _ _ => 40⟩ ⟨0, 0⟩ ⟨0, 30⟩
    ⟨1, 12, ⟨0, 0⟩⟩ (show (10 : ℚ) ≤ 80 by norm_num)

/-- C6: for a single candidate building passing both filters and occluding
(apparent elevation at least the solar altitude), the reported confidence is
exactly min 1 of the elevation margin over 10 times the azimuth alignment
factor; it is 0 when the delta sits exactly at the 25-degree tolerance and 1
as soon as the margin reaches 10 degrees with exact alignment. -/
theorem isShaded_confidence_formula (g : Geo) (terrace : Point) (sun : SunAngles)
    (b : Building)
    (hd : g.distanceMeters terrace b.centroid ≤ 80)
    (hΔ : angleDiffDeg (g.bearingDeg terrace b.centroid) (jsMod (sun.azimuthDeg + 180) 360) ≤ 25)
    (he : sun.altitudeDeg ≤ g.atanDeg b.height_m (g.distanceMeters terrace b.centroid)) :
    (isShadedByBuildings g terrace sun [b] 80 25).confidence
        = min 1 ((g.atanDeg b.height_m (g.distanceMeters terrace b.centroid)
            - sun.altitudeDeg) / 10
          * (1 - angleDiffDeg (g.bearingDeg terrace b.centroid)
              (jsMod (sun.azimuthDeg + 180) 360) / 25)) ∧
      (angleDiffDeg (g.bearingDeg terrace b.centroid) (jsMod (sun.azimuthDeg + 180) 360) = 25 →
        (isShadedByBuildings g terrace sun [b] 80 25).confidence = 0) ∧
      (angleDiffDeg (g.bearingDeg terrace b.centroid) (jsMod (sun.azimuthDeg + 180) 360) = 0 →
        10 ≤ g.atanDeg b.height_m (g.distanceMeters terrace b.centroid) - sun.altitudeDeg →
        (isShadedByBuildings g terrace sun [b] 80 25).confidence = 1) := by
  have hres : isShadedByBuildings g terrace sun [b] 80 25
      = shadeStep g terrace (jsMod (sun.azimuthDeg + 180) 360) sun.altitudeDeg 80 25
        ⟨false, 0, none⟩ b := rfl
  have hmain : (isShadedByBuildings g terrace sun [b] 80 25).confidence
      = min 1 ((g.atanDeg b.height_m (g.distanceMeters terrace b.centroid)
          - sun.altitudeDeg) / 10
        * (1 - angleDiffDeg (g.bearingDeg terrace b.centroid)
            (jsMod (sun.azimuthDeg + 180) 360) / 25)) := by
    rw [hres, shadeStep_init]
    by_cases hC : 0 < min 1 ((g.atanDeg b.height_m (g.distanceMeters terrace b.centroid)
        - sun.altitudeDeg) / 10
      * (1 - angleDiffDeg (g.bearingDeg terrace b.centroid)
          (jsMod (sun.azimuthDeg + 180) 360) / 25))
    · rw [if_pos ⟨hd, hΔ, he, hC⟩]
    · rw [if_neg (by rintro ⟨-, -, -, hc⟩; exact hC hc)]
      have hp1 : 0 ≤ (g.atanDeg b.height_m (g.distanceMeters terrace b.centroid)
          - sun.altitudeDeg) / 10 :=
        div_nonneg (by linarith) (by norm_num)
      have hp2 : 0 ≤ 1 - angleDiffDeg (g.bearingDeg terrace b.centroid)
          (jsMod (sun.azimuthDeg + 180) 360) / 25 := by
        have : angleDiffDeg (g.bearingDeg terrace b.centroid)
            (jsMod (sun.azimuthDeg + 180) 360) / 25 ≤ 1 := by
          rw [div_le_one (by norm_num : (0 : ℚ) < 25)]
          exact hΔ
        linarith
      have hnn : 0 ≤ min 1 ((g.atanDeg b.height_m (g.distanceMeters terrace b.centroid)
          - sun.altitudeDeg) / 10
        * (1 - angleDiffDeg (g.bearingDeg terrace b.centroid)
            (jsMod (sun.azimuthDeg + 180) 360) / 25)) :=
        le_min (by norm_num) (mul_nonneg hp1 hp2)
      push_neg at hC
      exact (le_antisymm hC hnn).symm
  refine ⟨hmain, ?_, ?_⟩
  · intro h25
    rw [hmain, h25]
    norm_num
  · intro h0 h10
    rw [hmain, h0]
    have h1le : (1 : ℚ) ≤ (g.atanDeg b.height_m (g.distanceMeters terrace b.centroid)
        - sun.altitudeDeg) / 10 * (1 - 0 / 25) := by
      rw [show ((1 : ℚ) - 0 / 25) = 1 by norm_num, mul_one,
        le_div_iff₀ (by norm_num : (0 : ℚ) < 10)]
      linarith
    rw [min_eq_left h1le]

theorem isShaded_confidence_formula_witness :
    (isShadedByBuildings ⟨fun _ _ => 10, fun _ _ => 180, fun _ _ => 45⟩ ⟨0, 0⟩ ⟨0, 40⟩
        [⟨1, 12, ⟨0, 0⟩⟩] 80 25).confidence
        = min 1 (((45 : ℚ) - 40) / 10
          * (1 - angleDiffDeg 180 (jsMod ((0 : ℚ) + 180) 360) / 25)) ∧
      (angleDiffDeg 180 (jsMod ((0 : ℚ) + 180) 360) = 25 →
        (isShadedByBuildings ⟨fun _ _ => 10, fun _ _ => 180, fun _ _ => 45⟩ ⟨0, 0⟩ ⟨0, 40⟩
          [⟨1, 12, ⟨0, 0⟩⟩] 80 25).confidence = 0) ∧
      (angleDiffDeg 180 (jsMod ((0 : ℚ) + 180) 360) = 0 →
        (10 : ℚ) ≤ 45 - 40 →
        (isShadedByBuildings ⟨fun _ _ => 10, fun _ _ => 180, fun _ _ => 45⟩ ⟨0, 0⟩ ⟨0, 40⟩
          [⟨1, 12, ⟨0, 0⟩⟩] 80 25).confidence = 1) :=
  isShaded_confidence_formula ⟨fun _ _ => 10, fun _ _ => 180, fun _ _ => 45⟩ ⟨0, 0⟩ ⟨0, 40⟩
    ⟨1, 12, ⟨0, 0⟩⟩ (show (10 : ℚ) ≤ 80 by norm_num)
    (by norm_num [angleDiffDeg, jsMod, jsTrunc])
    (show (40 : ℚ) ≤ 45 by norm_num)

/-- The final shade-attenuated score of the code equals the specification
formula round of clamp of the product. -/
lemma finalScore_eq_spec (raw : ℤ) (s : ShadowResult) :
    finalScore raw s
      = jsRound (max 0 (min 100 ((raw : ℚ)
          * (if s.shaded then 0.4 - 0.2 * s.confidence else 1)))) := by
  unfold finalScore shadeFactor
  rw [jsRound_clamp]

/-- C7: the forecast driver returns exactly one entry per input offset, in
the same order, and each score is round of clamp of the raw score times the
shade factor, as the specification states. -/
theorem forecast_matches_projection (g : Geo) (sunAt : ℤ → ℚ × ℚ) (orientationDeg : ℚ)
    (sw : StreetWidth) (cf : Option ℚ) (terrace : Point) (buildings : List Building)
    (now : ℤ) (offsets : List ℤ) :
    forecast g sunAt orientationDeg sw cf terrace buildings now offsets
        = projectSpec g sunAt orientationDeg sw cf terrace buildings now offsets ∧
      (forecast g sunAt orientationDeg sw cf terrace buildings now offsets).length
        = offsets.length ∧
      (forecast g sunAt orientationDeg sw cf terrace buildings now offsets).map Prod.fst
        = offsets := by
  refine ⟨?_, ?_, ?_⟩
  · unfold forecast projectSpec
    apply List.map_congr_left
    intro m _
    simp only [finalScore_eq_spec]
  · unfold forecast
    exact List.length_map _ _
  · unfold forecast
    rw [List.map_map]
    exact List.map_id _

end SunSeat
